import Mathlib

/-!
Verification of the RAG quiz-generation pipeline
(`ingest_chroma.py`, `retrival_chroma.py`, `quiz_generator.py`).

The Python sources are shallowly embedded: pure functions become Lean
functions over `List Char` / `String`, the `while` loop of `chunk_text`
becomes a fuel-indexed loop (one unit of fuel per loop iteration), machine
integers become `Int`/`Nat` (Python integers are unbounded, so no modular
wrap is needed), and external collaborators (the OpenAI embedding backend,
the JSON decoder of the standard library, the Chroma collection store) are
either parameters of the embedded functions or explicit state values.
-/

namespace RagQuiz

/-! ## Python string primitives

`str.strip()`, `str.lower()`, `str.upper()` restricted to the ASCII
fragment actually exercised by the repository (Python's Unicode behaviour
agrees with this model on ASCII data). -/

/-- Python whitespace for `str.strip` and the regex class `\s`:
space, tab, newline, carriage return, vertical tab, form feed. -/
def isPySpace (c : Char) : Bool :=
  c = ' ' || c = '\t' || c = '\n' || c = '\r' || c = '\x0b' || c = '\x0c'

/-- Python `str.strip()` on a character list: drop whitespace from both ends. -/
def pyStripList (cs : List Char) : List Char :=
  ((cs.dropWhile isPySpace).reverse.dropWhile isPySpace).reverse

/-- Python `str.strip()`. -/
def pyStrip (s : String) : String :=
  String.mk (pyStripList s.toList)

/-- Python `str.lower()` on one character (ASCII: `'A'..'Z'` shift by 32). -/
def pyLowerChar (c : Char) : Char :=
  if 65 ≤ c.toNat ∧ c.toNat ≤ 90 then Char.ofNat (c.toNat + 32) else c

/-- Python `str.lower()`. -/
def pyLower (s : String) : String :=
  String.mk (s.toList.map pyLowerChar)

/-- Python `str.upper()` on one character (ASCII: `'a'..'z'` shift by 32). -/
def pyUpperChar (c : Char) : Char :=
  if 97 ≤ c.toNat ∧ c.toNat ≤ 122 then Char.ofNat (c.toNat - 32) else c

/-- Python `str.upper()`. -/
def pyUpper (s : String) : String :=
  String.mk (s.toList.map pyUpperChar)

theorem toNat_ofNat_of_valid {n : Nat} (h : n.isValidChar) :
    (Char.ofNat n).toNat = n := by
  rw [Char.ofNat, dif_pos h]
  rfl

theorem pyLowerChar_idem (c : Char) : pyLowerChar (pyLowerChar c) = pyLowerChar c := by
  unfold pyLowerChar
  by_cases h : 65 ≤ c.toNat ∧ c.toNat ≤ 90
  · rw [if_pos h]
    have hv : (c.toNat + 32).isValidChar := Or.inl (by omega)
    rw [if_neg]
    rw [toNat_ofNat_of_valid hv]
    omega
  · rw [if_neg h, if_neg h]

theorem pyLower_idem (s : String) : pyLower (pyLower s) = pyLower s := by
  unfold pyLower
  cases s with
  | mk data =>
    simp [String.toList, List.map_map, Function.comp_def, pyLowerChar_idem]

/-! ## `chunk_text` (ingest_chroma.py, lines 84–106)

```python
def chunk_text(text, chunk_size=800, overlap=150):
    chunks = []
    start = 0
    n = len(text)
    while start < n:
        end = min(start + chunk_size, n)
        chunk = text[start:end].strip()
        if chunk:
            chunks.append(chunk)
        start = end - overlap
        if start < 0:
            start = 0
        if end == n:
            break
    return chunks
```

The `while` loop is embedded fuel-indexed: each unit of fuel is one loop
iteration; `none` means the fuel ran out before the loop finished.  The
clamp `if start < 0: start = 0` coincides with truncated `Nat`
subtraction `end - overlap`.  The Python code assigns the new `start`
before testing `end == n`, but since the loop exits at that test the new
`start` is never read on the exit path, so testing `end == n` first is
equivalent. -/

def chunkLoop (text : List Char) (chunkSize overlap : Nat) :
    Nat → Nat → List (List Char) → Option (List (List Char))
  | 0, _, _ => none
  | fuel + 1, start, chunks =>
    if start < text.length then
      let e := min (start + chunkSize) text.length
      let chunk := pyStripList ((text.drop start).take (e - start))
      let chunks2 := if chunk.isEmpty then chunks else chunks ++ [chunk]
      if e = text.length then
        some chunks2
      else
        chunkLoop text chunkSize overlap fuel (e - overlap) chunks2
    else
      some chunks

/-- `chunk_text` with the source's default parameters available; the fuel
`text.length + 1` is enough for every terminating execution of the loop. -/
def chunk_text (text : List Char) (chunkSize : Nat := 800) (overlap : Nat := 150) :
    List (List Char) :=
  (chunkLoop text chunkSize overlap (text.length + 1) 0 []).getD []

theorem chunkLoop_isSome (text : List Char) (chunkSize overlap : Nat)
    (hlt : overlap < chunkSize) :
    ∀ (fuel start : Nat) (chunks : List (List Char)),
      text.length ≤ start + fuel * (chunkSize - overlap) → 0 < fuel →
      (chunkLoop text chunkSize overlap fuel start chunks).isSome := by
  intro fuel
  induction fuel with
  | zero => intro start chunks _ h0; exact absurd h0 (by omega)
  | succ fuel ih =>
    intro start chunks hbound _
    rw [chunkLoop]
    by_cases hs : start < text.length
    · rw [if_pos hs]
      by_cases he : min (start + chunkSize) text.length = text.length
      · rw [if_pos he]
        rfl
      · rw [if_neg he]
        have hmin : min (start + chunkSize) text.length = start + chunkSize := by
          omega
        rw [hmin]
        apply ih
        · rw [Nat.succ_mul] at hbound
          omega
        · have : start + chunkSize < text.length := by
            rw [hmin] at he
            omega
          rw [Nat.succ_mul] at hbound
          by_contra h0
          have : fuel = 0 := by omega
          subst this
          omega
    · rw [if_neg hs]
      rfl

/-- C5: for every input text and every `chunk_size > overlap ≥ 0`, the
fixed-size chunking loop of `chunk_text` terminates in at most
`⌈len(text) / (chunk_size − overlap)⌉ + 1` iterations (one unit of fuel is
one iteration of the `while` loop, and `⌈n/d⌉ = (n + d - 1) / d` in `Nat`
arithmetic). -/
theorem chunk_text_terminates_within_ceil_bound
    (text : List Char) (chunkSize overlap : Nat) (hlt : overlap < chunkSize) :
    (chunkLoop text chunkSize overlap
      ((text.length + (chunkSize - overlap) - 1) / (chunkSize - overlap) + 1)
      0 []).isSome := by
  have harith : ∀ (n d : Nat), 0 < d → n ≤ ((n + d - 1) / d + 1) * d := by
    intro n d hdpos
    have hdm := Nat.div_add_mod (n + d - 1) d
    have hmod := Nat.mod_lt (n + d - 1) hdpos
    have hcomm : d * ((n + d - 1) / d) = ((n + d - 1) / d) * d := Nat.mul_comm _ _
    rw [Nat.succ_mul]
    omega
  apply chunkLoop_isSome text chunkSize overlap hlt
  · rw [Nat.zero_add]
    exact harith text.length (chunkSize - overlap) (by omega)
  · exact Nat.succ_pos _

/-- C5 witness: concrete run with `text = "abcdef"`, `chunk_size = 3`,
`overlap = 1`; the bound is `⌈6/2⌉ + 1 = 4` iterations. -/
theorem chunk_text_terminates_within_ceil_bound_witness :
    (chunkLoop "abcdef".toList 3 1 4 0 []).isSome :=
  chunk_text_terminates_within_ceil_bound "abcdef".toList 3 1 (by omega)

theorem chunkLoop_overlap_eq_size_stuck :
    ∀ (fuel : Nat) (chunks : List (List Char)),
      chunkLoop "abc".toList 1 1 fuel 0 chunks = none := by
  intro fuel
  induction fuel with
  | zero => intro chunks; rfl
  | succ fuel ih =>
    intro chunks
    rw [chunkLoop]
    norm_num
    exact ih _

/-- C4: called with `overlap = chunk_size` (here both `1`) on the text
`"abc"`, the `while` loop of `chunk_text` never terminates: `start` is
reset to `end - overlap = 0` on every iteration while `end = 1 ≠ 3`, so the
loop exhausts any amount of fuel.  No `ConfigurationError` (or any other
exception) is raised by the source: the function has no parameter check at
all. -/
theorem chunk_text_no_overlap_check_diverges (fuel : Nat) :
    chunkLoop "abc".toList 1 1 fuel 0 [] = none :=
  chunkLoop_overlap_eq_size_stuck fuel []

/-! ## `generate_mixed_quiz` question split (quiz_generator.py, lines 335–338)

```python
num_mcq = max(1, num_questions // 2)
num_tf = max(1, (num_questions - num_mcq) // 2)
num_fill = num_questions - num_mcq - num_tf
```

Python integers are unbounded and `//` is floor division, so the split is
embedded over `Int` with `Int.fdiv`. -/

def num_mcq (numQuestions : Int) : Int :=
  max 1 (Int.fdiv numQuestions 2)

def num_tf (numQuestions : Int) : Int :=
  max 1 (Int.fdiv (numQuestions - num_mcq numQuestions) 2)

def num_fill (numQuestions : Int) : Int :=
  numQuestions - num_mcq numQuestions - num_tf numQuestions

/-- C2 counterexample: the claim asserts the three parts are nonnegative for
every `count ≥ 1`, naming `count = 1` among the checked values, but at
`count = 1` the code computes `num_fill = 1 - 1 - 1 = -1`. -/
theorem mixed_split_negative_at_one :
    num_fill 1 = -1 := by decide

theorem fdiv_two_bounds (a : Int) : 2 * (Int.fdiv a 2) ≤ a ∧ a < 2 * (Int.fdiv a 2) + 2 := by
  have h := Int.fdiv_add_fmod a 2
  have h1 : 0 ≤ Int.fmod a 2 := Int.fmod_nonneg' a (by omega)
  have h2 : Int.fmod a 2 < 2 := Int.fmod_lt_of_pos a (by omega)
  omega

/-- C2 amended: the three parts always sum to `count`; they are all
nonnegative for every `count ≥ 2` (at `count = 1` the fill-blank part is
`-1`); and `count = 5` splits into 2 MCQ, 1 True/False, 2 Fill-blank. -/
theorem mixed_split_amended (count : Int) :
    num_mcq count + num_tf count + num_fill count = count ∧
    (2 ≤ count → 0 ≤ num_mcq count ∧ 0 ≤ num_tf count ∧ 0 ≤ num_fill count) ∧
    num_mcq 5 = 2 ∧ num_tf 5 = 1 ∧ num_fill 5 = 2 := by
  refine ⟨by unfold num_fill; ring, ?_, by decide, by decide, by decide⟩
  intro h2
  have hm := fdiv_two_bounds count
  have hmcq : num_mcq count = Int.fdiv count 2 := by
    unfold num_mcq
    have := fdiv_two_bounds count
    omega
  have ht := fdiv_two_bounds (count - num_mcq count)
  unfold num_fill
  unfold num_tf
  rw [hmcq] at ht ⊢
  omega

/-- C2 amended witness at `count = 7`: parts `(3, 2, 2)`, nonnegative,
summing to 7. -/
theorem mixed_split_amended_witness :
    num_mcq 7 + num_tf 7 + num_fill 7 = 7 ∧
    (0 ≤ num_mcq 7 ∧ 0 ≤ num_tf 7 ∧ 0 ≤ num_fill 7) :=
  ⟨(mixed_split_amended 7).1, (mixed_split_amended 7).2.1 (by decide)⟩

/-! ## Ingestion into the persistent collection store

The external Chroma store is modelled as `Option (List Entry)`: `none` when
the persist directory does not exist, `some entries` for a directory whose
single collection holds `entries` (pairs of chunk id and chunk text, in
insertion order).  The store interface (§6 of the design): `rmtree` deletes
the directory; `Chroma.from_documents` / `get_or_create_collection` +
`collection.add` create-or-open the collection and append entries to it. -/

abbrev Entry := String × String

/-- Helper for `re.sub(r"\s+", " ", text)`: `prevWs` records whether the
previous character belonged to a whitespace run, so that each maximal run
contributes exactly one space. -/
def squeezeWsAux : Bool → List Char → List Char
  | _, [] => []
  | prevWs, c :: rest =>
    if isPySpace c then
      if prevWs then squeezeWsAux true rest
      else ' ' :: squeezeWsAux true rest
    else c :: squeezeWsAux false rest

/-- Python `re.sub(r"\s+", " ", text)`: every maximal nonempty run of
whitespace becomes one space. -/
def squeezeWs (cs : List Char) : List Char :=
  squeezeWsAux false cs

/-- `clean_text` (ingest_chroma.py, lines 72–78): drop NUL characters,
collapse whitespace runs to single spaces, strip the ends. -/
def clean_text (text : List Char) : List Char :=
  pyStripList (squeezeWs (text.filter (fun c => c ≠ '\x00')))

/-- Chunk ids and texts produced for one document inside the loop of
`ingest_to_chroma` (lines 155–167): `f"{doc['id']}::chunk_{i}"` paired with
the chunk text. -/
def docEntries (docId : String) (text : List Char) : List Entry :=
  ((chunk_text (clean_text text)).enum).map
    (fun p => (docId ++ "::chunk_" ++ toString p.1, String.mk p.2))

/-- The batch-insert loop of `ingest_to_chroma` (lines 176–192):
`collection.add` appends each slice of 64 entries to the collection. -/
def addBatches : List Entry → List Entry → List Entry
  | collection, [] => collection
  | collection, e :: es =>
    addBatches (collection ++ (e :: es).take 64) ((e :: es).drop 64)
termination_by _ es => es.length
decreasing_by
  simp only [List.drop, List.length_drop, List.length_cons]
  omega

/-- `ingest_to_chroma` (ingest_chroma.py, lines 135–199) as a transformer
of the store state: `get_or_create_collection` opens the existing
collection (or an empty one), the per-document loop builds chunk entries,
and the batch loop `add`s them after the existing contents; when no chunk
is produced the function returns early with the collection untouched.
Embedding calls succeed and are content-irrelevant for the stored ids and
texts, so they are not modelled here. -/
def ingest_to_chroma (store : Option (List Entry))
    (docs : List (String × List Char)) : Option (List Entry) :=
  let collection := store.getD []
  let entries := docs.flatMap (fun d => docEntries d.1 d.2)
  if entries.isEmpty then some collection
  else some (addBatches collection entries)

/-- `shutil.rmtree(PERSIST_DIR)` guarded by `os.path.exists` in
`create_vector_store` (quiz_generator.py, lines 106–108). -/
def rmtree_if_exists (store : Option (List Entry)) : Option (List Entry) :=
  match store with
  | some _ => none
  | none => none

/-- `Chroma.from_documents` (quiz_generator.py, lines 111–116): opens or
creates the collection in the persist directory and adds the given
documents to it. -/
def chroma_from_documents (store : Option (List Entry))
    (documents : List Entry) : Option (List Entry) :=
  some (store.getD [] ++ documents)

/-- `NotesIngestion.create_vector_store` (quiz_generator.py, lines
101–119): removes the persist directory if present, then builds a fresh
store from the documents. -/
def create_vector_store (store : Option (List Entry))
    (documents : List Entry) : Option (List Entry) :=
  chroma_from_documents (rmtree_if_exists store) documents

theorem addBatches_eq_append :
    ∀ (n : Nat) (es : List Entry), es.length ≤ n →
      ∀ collection, addBatches collection es = collection ++ es := by
  intro n
  induction n with
  | zero =>
    intro es hes collection
    rw [List.eq_nil_of_length_eq_zero (Nat.le_zero.mp hes)]
    rw [addBatches]
    simp
  | succ n ih =>
    intro es hes collection
    match es with
    | [] => rw [addBatches]; simp
    | e :: es =>
      rw [addBatches]
      rw [ih ((e :: es).drop 64) (by simp at hes ⊢; omega)]
      rw [List.append_assoc, List.take_append_drop]

/-- C6 counterexample: a fresh run of `ingest_to_chroma` over a store that
already holds an entry of an earlier run keeps that prior entry: the
resulting collection is the old contents followed by the new chunks, not
the new chunks alone. -/
theorem ingest_to_chroma_keeps_prior_entries :
    ingest_to_chroma (some [("old::chunk_0", "x")]) [("a", "hello".toList)]
        = some [("old::chunk_0", "x"), ("a::chunk_0", "hello")] ∧
    ingest_to_chroma (some [("old::chunk_0", "x")]) [("a", "hello".toList)]
        ≠ some (docEntries "a" "hello".toList) := by
  have hentries : [("a", "hello".toList)].flatMap (fun d => docEntries d.1 d.2)
      = [("a::chunk_0", "hello")] := by rfl
  have hrun : ingest_to_chroma (some [("old::chunk_0", "x")]) [("a", "hello".toList)]
      = some [("old::chunk_0", "x"), ("a::chunk_0", "hello")] := by
    unfold ingest_to_chroma
    rw [hentries]
    simp only [Option.getD_some, List.isEmpty_cons, Bool.false_eq_true, if_false]
    rw [addBatches_eq_append 1 _ (by simp)]
    rfl
  refine ⟨hrun, ?_⟩
  rw [hrun]
  have hdoc : docEntries "a" "hello".toList = [("a::chunk_0", "hello")] := by rfl
  rw [hdoc]
  simp

/-- C6 amended: `NotesIngestion.create_vector_store` does fully replace the
store (the persist directory is deleted first, so the result holds exactly
the documents of the run), but `ingest_to_chroma` merges: over an existing
collection the result is the prior contents with the new chunk entries
appended (unchanged when the run produces no chunks). -/
theorem ingestion_replace_vs_merge (store : Option (List Entry))
    (documents prior : List Entry) (docs : List (String × List Char)) :
    create_vector_store store documents = some documents ∧
    ingest_to_chroma (some prior) docs =
      some (if (docs.flatMap (fun d => docEntries d.1 d.2)).isEmpty then prior
            else prior ++ docs.flatMap (fun d => docEntries d.1 d.2)) := by
  constructor
  · cases store <;> rfl
  · unfold ingest_to_chroma
    by_cases h : (docs.flatMap (fun d => docEntries d.1 d.2)).isEmpty
    · simp [h]
    · simp only [h, if_neg, Bool.false_eq_true, if_false, Option.getD_some]
      rw [addBatches_eq_append (docs.flatMap (fun d => docEntries d.1 d.2)).length _ le_rfl]

/-! ## Query-time retrieval

`embed_query` (retrival_chroma.py, lines 11–19) guards against empty
questions before calling the embedding backend; `retrieve_relevant_content`
(quiz_generator.py, lines 146–154) hands the topic straight to the Chroma
retriever.  Both embeddings instrument the number of calls that reach the
embedding backend, as the spec's stub-embedder test does: `embed_query`
returns `Except.error` for the raised `ValueError` (zero backend calls
issued) and otherwise `Except.ok 1` for the single successful
`client.embeddings.create` call. -/

def embed_query (question : String) : Except String Nat :=
  if pyStrip question = "" then Except.error "Question cannot be empty."
  else Except.ok 1

/-- `QuizGenerator.retrieve_relevant_content`: when no vector store is
loaded (`self.db` is `None`) it returns `[]` without touching the backend;
otherwise it invokes the retriever on the topic unconditionally — the
Chroma retriever embeds the query text via the configured embedding
function, which is one embedding-backend call (spec §4.4).  The external
retriever is a parameter mapping topic and `k` to the retrieved page
contents.  The second component counts embedding-backend calls. -/
def retrieve_relevant_content (db : Option (String → Nat → List String))
    (topic : String) (k : Nat := 5) : List String × Nat :=
  match db with
  | none => ([], 0)
  | some retriever => (retriever topic k, 1)

/-- C7 counterexample: with a loaded store, `retrieve_relevant_content`
issues one embedding-backend call even for the empty query (which is empty
after trimming), and raises nothing — contradicting the claim that every
empty-after-trimming query fails before any embedding call is issued. -/
theorem retrieve_embeds_empty_query :
    pyStrip "" = "" ∧
    (retrieve_relevant_content (some (fun _ _ => [])) "" 5).2 = 1 :=
  ⟨rfl, rfl⟩

/-- C7 amended: `embed_query` (retrival_chroma.py) raises
`ValueError("Question cannot be empty.")` before any embedding call when
the question trims to empty, but `QuizGenerator.retrieve_relevant_content`
performs no emptiness check: with a loaded store it issues the
retriever's embedding call for every topic, empty or not. -/
theorem empty_query_guard_only_in_embed_query :
    (∀ question : String, pyStrip question = "" →
        embed_query question = Except.error "Question cannot be empty.") ∧
    (∀ (retriever : String → Nat → List String) (topic : String) (k : Nat),
        (retrieve_relevant_content (some retriever) topic k).2 = 1) := by
  constructor
  · intro question h
    unfold embed_query
    rw [if_pos h]
  · intro retriever topic k
    rfl

/-- C7 amended witness: the whitespace-only question `" "` trims to empty
and is rejected by `embed_query` with zero embedding calls, while
`retrieve_relevant_content` on a loaded store issues one call for the same
query. -/
theorem empty_query_guard_only_in_embed_query_witness :
    embed_query " " = Except.error "Question cannot be empty." ∧
    (retrieve_relevant_content (some (fun _ _ => ["doc"])) " " 5).2 = 1 :=
  ⟨empty_query_guard_only_in_embed_query.1 " " (by decide),
   empty_query_guard_only_in_embed_query.2 (fun _ _ => ["doc"]) " " 5⟩

/-! ## Structured-output parsing of generated questions

`generate_mcq_questions` / `generate_true_false_questions` /
`generate_fill_blank_questions` (quiz_generator.py, lines 204–218, 258–271,
312–325) all share one parse stage:

```python
try:
    json_match = re.search(r'\{[\s\S]*\}', response.content)
    if json_match:
        result = json.loads(json_match.group())
        questions = result.get("questions", [])
        for q in questions:
            q["type"] = tag
        return questions
except json.JSONDecodeError:
    ...
return []
```

JSON values are embedded as `JValue` (objects keep field order, as Python
dicts do).  The external `json.loads` of the standard library is a
parameter `jsonLoads : String → Option JValue`, `none` standing for a
raised `json.JSONDecodeError`.  The regex `\{[\s\S]*\}` matches, for the
leftmost `{` with some `}` after it, greedily up to the last `}` of the
whole string — i.e. the span from the first `{` to the last `}` when the
first `{` precedes the last `}`, and nothing otherwise. -/

inductive JValue where
  | jnull : JValue
  | jbool : Bool → JValue
  | jnum : Int → JValue
  | jstr : String → JValue
  | jarr : List JValue → JValue
  | jobj : List (String × JValue) → JValue

def JValue.isObj : JValue → Bool
  | .jobj _ => true
  | _ => false

def jLookup : List (String × JValue) → String → Option JValue
  | [], _ => none
  | (k, v) :: rest, key => if k = key then some v else jLookup rest key

/-- Python `dict.get(key, default)` (the claims only apply it to decoded
objects; on any other value Python would raise `AttributeError`, handled
separately in `parse_questions`). -/
def jGet (v : JValue) (key : String) (dflt : JValue) : JValue :=
  match v with
  | .jobj fields => (jLookup fields key).getD dflt
  | _ => dflt

def setAssoc : List (String × JValue) → String → JValue → List (String × JValue)
  | [], key, newVal => [(key, newVal)]
  | (k, v) :: rest, key, newVal =>
    if k = key then (key, newVal) :: rest else (k, v) :: setAssoc rest key newVal

/-- Python `q[key] = value` on a dict: overwrite in place, or append the
new key at the end (Python dicts preserve insertion order). -/
def jSet (v : JValue) (key : String) (newVal : JValue) : JValue :=
  match v with
  | .jobj fields => .jobj (setAssoc fields key newVal)
  | other => other

def firstIdxOf (c : Char) : List Char → Option Nat
  | [] => none
  | d :: rest => if d = c then some 0 else (firstIdxOf c rest).map (· + 1)

def lastIdxOf (c : Char) (cs : List Char) : Option Nat :=
  match firstIdxOf c cs.reverse with
  | none => none
  | some j => some (cs.length - 1 - j)

/-- `re.search(r'\{[\s\S]*\}', content)`: the substring from the first
`'\x7b'` to the last `'\x7d'`, provided the former precedes the latter. -/
def extractJsonSpan (content : String) : Option String :=
  let cs := content.toList
  match firstIdxOf '\x7b' cs, lastIdxOf '\x7d' cs with
  | some i, some j => if i < j then some (String.mk ((cs.drop i).take (j + 1 - i))) else none
  | some _, none => none
  | none, _ => none

/-- The shared parse stage of the three question generators.  `Except` is
the raise/return behaviour towards the caller: `Except.error` is an
uncaught Python exception (only `json.JSONDecodeError` is caught, and only
around the decode itself — `result.get` on a non-dict raises
`AttributeError`, and `q["type"] = tag` on a non-dict item raises
`TypeError`; the degenerate empty-iterable edges of those branches are
collapsed into the error case, and no claim reaches them). -/
def parse_questions (jsonLoads : String → Option JValue) (content : String)
    (tag : String) : Except String (List JValue) :=
  match extractJsonSpan content with
  | none => Except.ok []
  | some payload =>
    match jsonLoads payload with
    | none => Except.ok []
    | some result =>
      match result with
      | .jobj _ =>
        match jGet result "questions" (.jarr []) with
        | .jarr qs =>
          if qs.all JValue.isObj then
            Except.ok (qs.map (fun q => jSet q "type" (.jstr tag)))
          else Except.error "TypeError"
        | _ => Except.error "TypeError"
      | _ => Except.error "AttributeError"

def allDistinct : List String → Bool
  | [] => true
  | x :: xs => !(xs.contains x) && allDistinct xs

/-- The per-item MultipleChoice invariant as the spec states it (§3): the
options mapping has exactly 4 labels, all option texts distinct, and the
correct-answer label is one of the option labels.  (The spec's
`correct_label` field is the source's `"correct_answer"` key.) -/
def specValidMCQ (q : JValue) : Bool :=
  match jGet q "options" JValue.jnull with
  | .jobj opts =>
    let texts := opts.map (fun p => match p.2 with | .jstr s => s | _ => "")
    let labels := opts.map Prod.fst
    let correct := match jGet q "correct_answer" JValue.jnull with
      | .jstr s => s
      | _ => ""
    decide (opts.length = 4) && allDistinct texts && labels.contains correct
  | _ => false

/-- An MCQ item with a single option and a correct-answer label absent from
its options — exactly what C1 says would be dropped. -/
def mcqBadItem : JValue :=
  .jobj [("question", .jstr "Q?"),
         ("options", .jobj [("A", .jstr "only option")]),
         ("correct_answer", .jstr "Z"),
         ("explanation", .jstr "e")]

def mcqBadPayload : JValue := .jobj [("questions", .jarr [mcqBadItem])]

/-- Stub for `json.loads` that decodes any payload to `mcqBadPayload`. -/
def mcqBadDecoder : String → Option JValue := fun _ => some mcqBadPayload

/-- The bad item as the source returns it, with the `"type"` tag added. -/
def mcqBadTagged : JValue :=
  .jobj [("question", .jstr "Q?"),
         ("options", .jobj [("A", .jstr "only option")]),
         ("correct_answer", .jstr "Z"),
         ("explanation", .jstr "e"),
         ("type", .jstr "mcq")]

/-- C1 counterexample: on a parsed model output whose single item has one
option and a correct-answer label absent from its options, the parse stage
of `generate_mcq_questions` returns that item (tagged `"type": "mcq"`)
instead of dropping it, so the returned question violates the
4-distinct-options / correct-label invariant: no validation is performed. -/
theorem mcq_generation_returns_invalid_item :
    parse_questions mcqBadDecoder "\x7b\x7d" "mcq" = Except.ok [mcqBadTagged] ∧
    specValidMCQ mcqBadTagged = false := by
  constructor
  · rfl
  · rfl

/-- A well-formed MCQ item (4 distinct options, correct label present). -/
def mcqGoodItem : JValue :=
  .jobj [("question", .jstr "Q?"),
         ("options", .jobj [("A", .jstr "w"), ("B", .jstr "x"),
                            ("C", .jstr "y"), ("D", .jstr "z")]),
         ("correct_answer", .jstr "A"),
         ("explanation", .jstr "e")]

def mcqGoodPayload : JValue := .jobj [("questions", .jarr [mcqGoodItem])]

def mcqGoodDecoder : String → Option JValue := fun _ => some mcqGoodPayload

/-- C1 amended: the parse stage of `generate_mcq_questions` performs no
per-item validation at all — whenever the decoded payload is an object
whose `"questions"` entry is an array of objects, every item of the array
is returned with the `"type"` tag set, whether or not it satisfies the
MultipleChoice invariants, and the output has exactly one question per
parsed item. -/
theorem mcq_generation_no_validation (jsonLoads : String → Option JValue)
    (content tag payload : String) (result : JValue) (qs : List JValue)
    (h1 : extractJsonSpan content = some payload)
    (h2 : jsonLoads payload = some result)
    (h3 : result.isObj = true)
    (h4 : jGet result "questions" (.jarr []) = .jarr qs)
    (h5 : qs.all JValue.isObj = true) :
    parse_questions jsonLoads content tag
        = Except.ok (qs.map (fun q => jSet q "type" (.jstr tag))) ∧
    (qs.map (fun q => jSet q "type" (.jstr tag))).length = qs.length := by
  refine ⟨?_, List.length_map qs _⟩
  unfold parse_questions
  rw [h1]
  dsimp only
  rw [h2]
  match result, h3 with
  | .jobj fields, _ =>
    dsimp only
    rw [h4]
    dsimp only
    rw [if_pos h5]

/-- C1 amended witness: a valid 4-option item is likewise returned tagged,
one output question for the one parsed item. -/
theorem mcq_generation_no_validation_witness :
    parse_questions mcqGoodDecoder "\x7b\x7d" "mcq"
        = Except.ok ([mcqGoodItem].map (fun q => jSet q "type" (.jstr "mcq"))) ∧
    ([mcqGoodItem].map (fun q => jSet q "type" (.jstr "mcq"))).length
        = [mcqGoodItem].length :=
  mcq_generation_no_validation mcqGoodDecoder "\x7b\x7d" "mcq" "\x7b\x7d"
    mcqGoodPayload [mcqGoodItem] rfl rfl rfl rfl rfl

/-- C8: whenever no well-formed JSON payload can be located (no
first-`'\x7b'`-to-last-`'\x7d'` span) or the located span fails to decode
(`json.loads` raises `JSONDecodeError`, which the source catches), the
parse stage shared by `generate_mcq_questions` and
`generate_true_false_questions` returns the empty list and raises nothing
to its caller. -/
theorem parse_failure_degrades_to_empty (jsonLoads : String → Option JValue)
    (content tag : String)
    (h : ∀ payload, extractJsonSpan content = some payload → jsonLoads payload = none) :
    parse_questions jsonLoads content tag = Except.ok [] := by
  unfold parse_questions
  cases hx : extractJsonSpan content with
  | none => rfl
  | some payload =>
    dsimp only
    rw [h payload hx]

/-- C8 witness: a response with no JSON-like span at all, under a decoder
that always fails, yields the empty question list for both tags. -/
theorem parse_failure_degrades_to_empty_witness :
    parse_questions (fun _ => none) "no json here" "mcq" = Except.ok [] ∧
    parse_questions (fun _ => none) "\x7bnot json\x7d" "true_false" = Except.ok [] :=
  ⟨parse_failure_degrades_to_empty (fun _ => none) "no json here" "mcq"
      (fun _ _ => rfl),
   parse_failure_degrades_to_empty (fun _ => none) "\x7bnot json\x7d" "true_false"
      (fun _ _ => rfl)⟩

/-! ## Quiz runner (quiz_generator.py, lines 365–522)

Questions are the tagged variant the runner dispatches on via
`question.get("type")`; `Answer` is the value `get_answer` produces (a
string for `"mcq"` and `"fill_blank"`, a `bool` for `"true_false"`).  The
blocking `input()` loop of `get_answer` maps to an `Option`-returning
validation of one raw line: `none` means the loop re-prompts. -/

inductive Question where
  | mcq (question : String) (options : List (String × String))
        (correctAnswer : String) (explanation : String)
  | trueFalse (statement : String) (correctAnswer : Bool) (explanation : String)
  | fillBlank (question : String) (correctAnswer : String)
        (acceptableAnswers : Option (List String)) (hint : Option String)

def qtypeOf : Question → String
  | .mcq .. => "mcq"
  | .trueFalse .. => "true_false"
  | .fillBlank .. => "fill_blank"

inductive Answer where
  | astr (s : String)
  | abool (b : Bool)
deriving DecidableEq

/-- `QuizRunner.get_answer` (lines 395–418) applied to one raw input line:
strip, then per-format validation — MCQ accepts (case-insensitively)
exactly `A`–`D` and returns the upper-cased letter; True/False accepts
`true`/`t`/`false`/`f` case-insensitively and returns the boolean;
Fill-blank accepts any nonempty input and returns it lower-cased; an
unknown type echoes the stripped input back.  `none` re-prompts. -/
def get_answer (qtype : String) (raw : String) : Option Answer :=
  let answer := pyStrip raw
  if qtype = "mcq" then
    if ["A", "B", "C", "D"].contains (pyUpper answer) then
      some (.astr (pyUpper answer))
    else none
  else if qtype = "true_false" then
    if ["true", "t", "false", "f"].contains (pyLower answer) then
      some (.abool (["true", "t"].contains (pyLower answer)))
    else none
  else if qtype = "fill_blank" then
    if answer ≠ "" then some (.astr (pyLower answer)) else none
  else some (.astr answer)

/-- `QuizRunner.check_answer` (lines 420–435): MCQ and True/False compare
for equality with the stored correct answer; Fill-blank lower-cases the
stored `correct_answer`, lower-cases every entry of `acceptable_answers`
(defaulting to the singleton of the already-lowered correct answer when the
key is absent), and tests membership of the user answer.  A type mismatch
(or unknown type) compares unequal, as in Python. -/
def check_answer (q : Question) (userAnswer : Answer) : Bool :=
  match q, userAnswer with
  | .mcq _ _ correctAnswer _, .astr u => u = correctAnswer
  | .trueFalse _ correctAnswer _, .abool b => b = correctAnswer
  | .fillBlank _ correctAnswer acceptableAnswers _, .astr u =>
    let correct := pyLower correctAnswer
    let acceptable := (acceptableAnswers.getD [correct]).map pyLower
    acceptable.contains u
  | _, _ => false

structure QuizResult where
  quiz_name : String
  score : Nat
  total : Nat
  percentage : ℚ
deriving DecidableEq

structure RunnerState where
  current_score : Nat
  total_questions : Nat
  quiz_history : List QuizResult

/-- The score update of `QuizRunner.show_result` (lines 437–458): the
score is incremented exactly on a correct answer (the rest of the method
only prints). -/
def show_result (st : RunnerState) (isCorrect : Bool) : RunnerState :=
  if isCorrect then { st with current_score := st.current_score + 1 } else st

/-- `QuizRunner.show_final_results` (lines 491–522): computes
`percentage = score / total * 100` (exact rational in this embedding;
Python computes the same value in binary floating point and prints it
rounded to one decimal), appends the `QuizResult` record to
`self.quiz_history`, and returns the record.  The `timestamp` field is
external wall-clock data and not modelled. -/
def show_final_results (st : RunnerState) (quizName : String) :
    RunnerState × QuizResult :=
  let percentage : ℚ := (st.current_score : ℚ) / (st.total_questions : ℚ) * 100
  let result : QuizResult :=
    { quiz_name := quizName, score := st.current_score,
      total := st.total_questions, percentage := percentage }
  ({ st with quiz_history := st.quiz_history ++ [result] }, result)

/-- The per-question body of `QuizRunner.run_quiz` (lines 478–486):
`get_answer` (the session supplies one valid raw line per question, so the
re-prompt loop finishes on it), `check_answer`, `show_result`. -/
def answer_one (st : RunnerState) (q : Question) (raw : String) : RunnerState :=
  match get_answer (qtypeOf q) raw with
  | some userAnswer => show_result st (check_answer q userAnswer)
  | none => st

/-- `QuizRunner.run_quiz` (lines 460–489): empty question list short
circuits to no result; otherwise reset the score, ask every question in
order, then emit the final results. -/
def run_quiz (st : RunnerState) (questions : List (Question × String))
    (quizName : String) : RunnerState × Option QuizResult :=
  if questions.isEmpty then (st, none)
  else
    let st1 := { st with current_score := 0,
                         total_questions := questions.length }
    let st2 := questions.foldl (fun s p => answer_one s p.1 p.2) st1
    let (st3, result) := show_final_results st2 quizName
    (st3, some result)

/-- Rounding to one decimal, as Python's `f"{x:.1f}"` displays the stored
percentage (`200/3` has no tie, so half-even and half-up agree). -/
def roundTo1 (x : ℚ) : ℚ := (round (10 * x) : ℚ) / 10

def demoQuizQA : List (Question × String) :=
  [(.fillBlank "The capital of France is _____." "Paris" none none, "Paris"),
   (.fillBlank "The capital of Italy is _____." "Rome" none none, "Florence"),
   (.fillBlank "2 + 2 = _____." "four" none none, "four")]

/-- C3: a 3-question session answered correctly on questions 1 and 3 and
incorrectly on question 2 emits a `QuizResult` with score 2, total 3 and
stored percentage `200/3` — which rounds to one decimal as `66.7` — and
appends exactly that record to the runner's process-scoped
`quiz_history`, whatever the prior state was. -/
theorem quiz_session_score_two_of_three (st : RunnerState) :
    (run_quiz st demoQuizQA "Quiz").2
        = some { quiz_name := "Quiz", score := 2, total := 3,
                 percentage := 200 / 3 } ∧
    roundTo1 (200 / 3) = 667 / 10 ∧
    (run_quiz st demoQuizQA "Quiz").1.quiz_history
        = st.quiz_history ++ [{ quiz_name := "Quiz", score := 2, total := 3,
                                percentage := 200 / 3 }] := by
  have hfold : demoQuizQA.foldl
      (fun s p => answer_one s p.1 p.2)
      { st with current_score := 0, total_questions := demoQuizQA.length }
      = { st with current_score := 2, total_questions := 3 } := by
    simp only [demoQuizQA, List.foldl, List.length_cons, List.length_nil]
    rfl
  refine ⟨?_, by unfold roundTo1; rw [round_eq]; norm_num, ?_⟩
  · unfold run_quiz
    rw [if_neg (by decide)]
    dsimp only
    rw [hfold]
    unfold show_final_results
    dsimp only
    norm_num
  · unfold run_quiz
    rw [if_neg (by decide)]
    dsimp only
    rw [hfold]
    unfold show_final_results
    dsimp only
    norm_num

def probationQ : Question :=
  .fillBlank "The _____ period for new employees is 6 months." "probation"
    (some ["probation", "probationary"]) (some "It is a trial period for new hires")

/-- C9: fill-blank answers go through `get_answer` (strip, then
lower-case) and `check_answer` (membership in the lower-cased
`acceptable_answers`): `"Probation"` is accepted against
`acceptable_answers = ["probation", "probationary"]`, `"probat"` is
validated as input but rejected by the grader. -/
theorem fill_blank_case_insensitive_match :
    get_answer "fill_blank" "Probation" = some (.astr "probation") ∧
    check_answer probationQ (.astr "probation") = true ∧
    get_answer "fill_blank" "probat" = some (.astr "probat") ∧
    check_answer probationQ (.astr "probat") = false := by
  refine ⟨?_, ?_, ?_, ?_⟩ <;> rfl

/-- C10: fill-blank grading accepts exactly the inputs whose lower-cased
form is among the lower-cased `acceptable_answers` entries; an absent list
falls back to the singleton of the lower-cased `correct_answer`; and a
present list that omits `correct_answer` rejects even an input identical
to `correct_answer` — its inclusion is not enforced at grading time. -/
theorem fill_blank_grading_membership (prompt correctAnswer : String)
    (l : List String) (hint : Option String) (raw : String) :
    (check_answer (.fillBlank prompt correctAnswer (some l) hint)
        (.astr (pyLower (pyStrip raw))) = true
      ↔ pyLower (pyStrip raw) ∈ l.map pyLower) ∧
    (check_answer (.fillBlank prompt correctAnswer none hint)
        (.astr (pyLower (pyStrip raw))) = true
      ↔ pyLower (pyStrip raw) = pyLower correctAnswer) ∧
    check_answer (.fillBlank "prompt" "Answer" (some ["other"]) none)
        (.astr (pyLower (pyStrip "Answer"))) = false := by
  refine ⟨?_, ?_, by rfl⟩
  · simp [check_answer]
  · simp [check_answer, pyLower_idem]

end RagQuiz
